import Mathlib

/-!
Verification development for the cursor-classification core in
`src/Magnes/CursorHelper/cursorhelper.c` and its public enumeration in
`src/Magnes/CursorHelper/CursorHelper-Bridging-Header.h`.

The C code is shallowly embedded:
* the pixel buffer is a byte map `Nat → Nat` (index ↦ byte value);
* the per-row / per-column / diagonal opaque-pixel counters of
  `determineResizeDirection` become `Finset` sums over the loop ranges;
* the C `double` computations (`(double)a / (double)b` of exactly
  representable `int` values, compared with `==` against the literals
  `0`, `0.04` and `1`) are modelled exactly: an IEEE-754 binary64
  operation on values in the normal range produces the correctly
  rounded (round to nearest, ties to even, 53-bit significand) value of
  the real result, so every `double` occurring in the program is a
  rational, and `roundDouble` below is that rounding function. A
  quotient of two nonnegative C `int` values is written `Rat.divInt`
  (which is the same rational as `↑a / ↑b`, spelled so that the kernel
  can evaluate it);
* the query facade `getCursorType` is parametrised by a `CursorService`
  record holding the status codes, size, dimensions and pixel bytes the
  window-server calls would produce, and returns an instrumented
  `QueryResult` recording the returned category, whether the real
  buffer was allocated, how many times it was freed, and whether the
  classifier was invoked.
-/

/-- The `CursorType` enumeration. Both the bridging header (with explicit
values) and the `.c` file (implicitly numbered from 0) declare
`ARROW = 0, IBEAM = 1, HORIZONTAL_RESIZE = 2, VERTICAL_RESIZE = 3,
DIAGONAL_RESIZE = 4, POINTER = 5, OTHER = 6`. -/
inductive CursorType where
  | ARROW
  | IBEAM
  | HORIZONTAL_RESIZE
  | VERTICAL_RESIZE
  | DIAGONAL_RESIZE
  | POINTER
  | OTHER
deriving DecidableEq

/-- Numeric value of each enumerator, as declared in
`CursorHelper-Bridging-Header.h` lines 11–19 (and identically, by C
implicit numbering, in `cursorhelper.c`). -/
def CursorType.toCode : CursorType → Nat
  | .ARROW => 0
  | .IBEAM => 1
  | .HORIZONTAL_RESIZE => 2
  | .VERTICAL_RESIZE => 3
  | .DIAGONAL_RESIZE => 4
  | .POINTER => 5
  | .OTHER => 6

/-- The enumerator denoted by a numeric value (the C code's
`return 1;` returns the `CursorType` of value 1). Values 0–6 are the
declared enumerators; other values do not occur in the program. -/
def CursorType.ofCode : Nat → CursorType
  | 0 => .ARROW
  | 1 => .IBEAM
  | 2 => .HORIZONTAL_RESIZE
  | 3 => .VERTICAL_RESIZE
  | 4 => .DIAGONAL_RESIZE
  | 5 => .POINTER
  | _ => .OTHER

/-- Fuel-carrying floor base-2 logarithm on `ℕ` (the fuel is an upper
bound on the number of halvings), written by structural recursion so
the kernel evaluates it. -/
def natLog2F : Nat → Nat → Nat
  | 0, _ => 0
  | fuel + 1, n => if 2 ≤ n then natLog2F fuel (n / 2) + 1 else 0

/-- `⌊log₂ n⌋` for `n ≥ 1` (and 0 at 0). -/
def natLog2 (n : Nat) : Nat := natLog2F n n

/-- Decides `2 ^ g ≤ a / b` for `a, b ≥ 1` and an integer `g`, using
only natural arithmetic. -/
def pow2LeRat (g : ℤ) (a b : Nat) : Bool :=
  if 0 ≤ g then decide (b * 2 ^ g.toNat ≤ a) else decide (b ≤ a * 2 ^ (-g).toNat)

/-- `⌊log₂ (a / b)⌋` for `a, b ≥ 1`: the candidate exponent
`⌊log₂ a⌋ - ⌊log₂ b⌋` overshoots by at most one, fixed up by one
comparison. -/
def floorLog2Q (a b : Nat) : ℤ :=
  let g : ℤ := (natLog2 a : ℤ) - (natLog2 b : ℤ)
  if pow2LeRat g a b then g else g - 1

/-- Round `a / b` (with `b ≥ 1`) to a natural number, ties to even —
the IEEE-754 default rounding's tie rule. -/
def roundNatDivHalfEven (a b : Nat) : Nat :=
  let q := a / b
  let r := a % b
  if 2 * r < b then q
  else if b < 2 * r then q + 1
  else if q % 2 = 0 then q else q + 1

/-- The IEEE-754 binary64 value nearest to the positive rational
`a / b` (`a, b ≥ 1`), as a rational: with `e = ⌊log₂ (a/b)⌋`, the
representable values around `a / b` are the integer multiples of
`2 ^ (e - 52)`, and rounding to nearest with ties to even picks the
multiple numbered `roundNatDivHalfEven (a · 2 ^ (52 - e)) b`. -/
def roundPosRat (a b : Nat) : ℚ :=
  let e : ℤ := floorLog2Q a b
  if 0 ≤ e - 52 then
    ((roundNatDivHalfEven a (b * 2 ^ (e - 52).toNat) * 2 ^ (e - 52).toNat : Nat) : ℚ)
  else
    mkRat (roundNatDivHalfEven (a * 2 ^ (52 - e).toNat) b) (2 ^ (52 - e).toNat)

/-- The IEEE-754 binary64 value nearest to a rational `q` (round to
nearest, ties to even, 53-bit significand), as a rational. Every
`double` the C program computes lies in the normal finite range, where
this is exactly the hardware semantics of the conversions, divisions
and literals involved: `int` values (all below `2 ^ 53`) convert
exactly, and a division of two exactly represented values yields the
correctly rounded real quotient. -/
def roundDouble (q : ℚ) : ℚ :=
  if q.num = 0 then 0
  else if 0 < q.num then roundPosRat q.num.toNat q.den
  else -roundPosRat (-q.num).toNat q.den

/-- The binary64 value of the C literal `0.04` (the decimal `0.04`,
i.e. `1/25`, rounded to a double). -/
def doubleLit004 : ℚ := roundDouble (Rat.divInt 1 25)

/-- The alpha byte the classifier reads for pixel `(x, y)`:
`pixelData[((size_t)y * width + x) * 4]` (`cursorhelper.c` lines 32–33
and 68–69). -/
def alphaAt (pixelData : Nat → Nat) (width x y : Nat) : Nat :=
  pixelData ((y * width + x) * 4)

/-- `totalCount` after the first traversal of `determineResizeDirection`:
the number of pixels whose alpha byte exceeds 10. -/
def totalCount (pixelData : Nat → Nat) (width height : Nat) : Nat :=
  ∑ y ∈ Finset.range height, ∑ x ∈ Finset.range width,
    if 10 < alphaAt pixelData width x y then 1 else 0

/-- `diagCount1`: opaque pixels on the main diagonal (`x == y`). -/
def diagCount1 (pixelData : Nat → Nat) (width height : Nat) : Nat :=
  ∑ y ∈ Finset.range height, ∑ x ∈ Finset.range width,
    if 10 < alphaAt pixelData width x y ∧ x = y then 1 else 0

/-- `diagCount2`: opaque pixels on the anti-diagonal
(`x == width - y - 1`, evaluated in C `int` arithmetic, hence over `ℤ`). -/
def diagCount2 (pixelData : Nat → Nat) (width height : Nat) : Nat :=
  ∑ y ∈ Finset.range height, ∑ x ∈ Finset.range width,
    if 10 < alphaAt pixelData width x y ∧ (x : ℤ) = (width : ℤ) - (y : ℤ) - 1
    then 1 else 0

/-- `rowCounts[y]` after the second traversal: opaque pixels in row `y`. -/
def rowCount (pixelData : Nat → Nat) (width y : Nat) : Nat :=
  ∑ x ∈ Finset.range width, if 10 < alphaAt pixelData width x y then 1 else 0

/-- `colCounts[x]` after the second traversal: opaque pixels in column `x`. -/
def colCount (pixelData : Nat → Nat) (width height x : Nat) : Nat :=
  ∑ y ∈ Finset.range height, if 10 < alphaAt pixelData width x y then 1 else 0

/-- `maxInAnyRow`: the largest per-row opaque count (0 when there are no
rows, matching the C accumulator's initial value). -/
def maxInAnyRow (pixelData : Nat → Nat) (width height : Nat) : Nat :=
  Finset.sup (Finset.range height) (fun y => rowCount pixelData width y)

/-- `maxInAnyCol`: the largest per-column opaque count. -/
def maxInAnyCol (pixelData : Nat → Nat) (width height : Nat) : Nat :=
  Finset.sup (Finset.range width) (fun x => colCount pixelData width height x)

/-- `frac1 = (double)diagCount1 / (double)totalCount`: both ints are
exactly representable, so the C value is the correctly rounded rational
quotient. -/
def frac1 (pixelData : Nat → Nat) (width height : Nat) : ℚ :=
  roundDouble (Rat.divInt (diagCount1 pixelData width height)
    (totalCount pixelData width height))

/-- `frac2 = (double)diagCount2 / (double)totalCount`. -/
def frac2 (pixelData : Nat → Nat) (width height : Nat) : ℚ :=
  roundDouble (Rat.divInt (diagCount2 pixelData width height)
    (totalCount pixelData width height))

/-- The condition under which the first phase of
`determineResizeDirection` returns `DIAGONAL_RESIZE`
(`cursorhelper.c` lines 46–52): `totalCount > 0`, and then
`frac1 == 0 && frac2 == 0.04` as `double` comparisons. -/
def diagSignature (pixelData : Nat → Nat) (width height : Nat) : Prop :=
  0 < totalCount pixelData width height ∧
  frac1 pixelData width height = 0 ∧
  frac2 pixelData width height = doubleLit004

instance instDecDiagSignature (pixelData : Nat → Nat) (width height : Nat) :
    Decidable (diagSignature pixelData width height) :=
  inferInstanceAs (Decidable (0 < totalCount pixelData width height ∧
    frac1 pixelData width height = 0 ∧
    frac2 pixelData width height = doubleLit004))

/-- `determineResizeDirection` (`cursorhelper.c` lines 23–98): the
diagonal test first, then the `switch (maxInAnyRow)` with cases 6, 8,
10, 14 and the fall-through `return OTHER`. -/
def determineResizeDirection (pixelData : Nat → Nat) (width height : Nat) :
    CursorType :=
  if diagSignature pixelData width height then .DIAGONAL_RESIZE
  else if maxInAnyRow pixelData width height = 6 then .VERTICAL_RESIZE
  else if maxInAnyRow pixelData width height = 8 then .HORIZONTAL_RESIZE
  else if maxInAnyRow pixelData width height = 10 then .HORIZONTAL_RESIZE
  else if maxInAnyRow pixelData width height = 14 then
    (if maxInAnyCol pixelData width height = 13 then .POINTER
     else .VERTICAL_RESIZE)
  else .OTHER

/-- The values the window-server calls would hand to one run of
`getCursorType`: the status and size reported by
`CGSGetGlobalCursorDataSize`, whether `malloc` succeeds, the status of
`CGSGetGlobalCursorData`, the cursor dimensions (after the C truncation
of `cursorSize.width`/`.height` to `int`), and the pixel bytes the
fetch writes into the buffer. -/
structure CursorService where
  sizeErr : ℤ
  dataSize : ℤ
  allocOk : Bool
  dataErr : ℤ
  width : ℤ
  height : ℤ
  pixelData : Nat → Nat

/-- One run of `getCursorType`, instrumented: the returned category,
whether the pixel buffer was actually allocated, how many times that
buffer was freed, and whether `determineResizeDirection` was invoked. -/
structure QueryResult where
  result : CursorType
  bufferAllocated : Bool
  bufferFrees : Nat
  classifierInvoked : Bool
deriving DecidableEq

/-- `getCursorType` (`cursorhelper.c` lines 100–160), path by path:
size-query failure and allocation failure return the numeric value `1`
before any buffer exists (on allocation failure the C code calls
`free(NULL)`, a no-op that touches no allocated buffer); fetch failure
frees the buffer and returns `1`; then the `width > 0 && height > 0`
guard, the `width == 23 && height == 22` short-circuit to `IBEAM`, the
`ratio == 1` delegation to the classifier
(`ratio = (double)width / (double)height`), and the final
`free(pixelData); return ARROW;`. -/
def getCursorTypeRun (s : CursorService) : QueryResult :=
  if s.sizeErr ≠ 0 ∨ s.dataSize ≤ 0 then
    ⟨CursorType.ofCode 1, false, 0, false⟩
  else if s.allocOk = false then
    ⟨CursorType.ofCode 1, false, 0, false⟩
  else if s.dataErr ≠ 0 then
    ⟨CursorType.ofCode 1, true, 1, false⟩
  else if 0 < s.width ∧ 0 < s.height then
    if s.width = 23 ∧ s.height = 22 then
      ⟨.IBEAM, true, 1, false⟩
    else if roundDouble (Rat.divInt s.width s.height) = 1 then
      ⟨determineResizeDirection s.pixelData s.width.toNat s.height.toNat,
        true, 1, true⟩
    else
      ⟨.ARROW, true, 1, false⟩
  else
    ⟨.ARROW, true, 1, false⟩

/-- The category one run of `getCursorType` returns. -/
def getCursorType (s : CursorService) : CursorType :=
  (getCursorTypeRun s).result

/-- `getCurrentCursorType` (`cursorhelper.c` lines 163–166), the
wrapper exposed to Swift. -/
def getCurrentCursorType (s : CursorService) : CursorType :=
  getCursorType s

/-- Observable actions of the visibility controller, in call order.
`setConnectionProp` stands for setting the `SetsCursorInBackground`
connection property. -/
inductive VisEvent where
  | setConnectionProp (value : Bool)
  | displayHide
  | displayShow
  | logError
  | resetSuppressionInterval (seconds : ℤ)
deriving DecidableEq

/-- `hideCursor` (`cursorhelper.c` lines 169–189), parametrised by the
`CGError` that `CGDisplayHideCursor` returns: sets the connection
property, issues the hide command, logs if that command failed, resets
the event-suppression interval, and returns `0`. -/
def hideCursor (hideErr : ℤ) : ℤ × List VisEvent :=
  (0,
    [VisEvent.setConnectionProp true, VisEvent.displayHide] ++
      (if hideErr ≠ 0 then [VisEvent.logError] else []) ++
      [VisEvent.resetSuppressionInterval 0])

/-- `showCursor` (`cursorhelper.c` lines 196–205), parametrised by the
`CGError` that `CGDisplayShowCursor` returns. -/
def showCursor (showErr : ℤ) : ℤ × List VisEvent :=
  (0,
    [VisEvent.displayShow] ++
      (if showErr ≠ 0 then [VisEvent.logError] else []) ++
      [VisEvent.resetSuppressionInterval 0])

/-- A square test buffer: a 6 × 6 grid whose main diagonal is
transparent, whose anti-diagonal is transparent except the single cell
`(5, 0)`, and whose other 24 cells are opaque — so 25 opaque pixels, 0
on the main diagonal and 1 (= 4%) on the anti-diagonal. -/
def diagWitnessBuf : Nat → Nat := fun i =>
  let p := i / 4
  let x := p % 6
  let y := p / 6
  if x = y then 0
  else if x + y = 5 ∧ ¬(x = 5 ∧ y = 0) then 0
  else 255

/-- A service interaction where the very first call fails: the size
query reports error code 1. -/
def failingSizeService : CursorService := ⟨1, 0, true, 0, 0, 0, fun _ => 0⟩

/-- A service interaction where the size query succeeds but the bitmap
fetch fails with error code 5. -/
def fetchFailService : CursorService := ⟨0, 400, true, 5, 10, 10, fun _ => 0⟩

/-- A successful interaction producing the 23 × 22 bitmap. -/
def ibeamService : CursorService := ⟨0, 2024, true, 0, 23, 22, fun _ => 255⟩

/-- A successful interaction producing a non-square 10 × 5 bitmap. -/
def arrowService : CursorService := ⟨0, 200, true, 0, 10, 5, fun _ => 0⟩

/-- A successful interaction producing a square 2 × 2 all-transparent
bitmap. -/
def squareService : CursorService := ⟨0, 16, true, 0, 2, 2, fun _ => 0⟩

/-- A successful interaction reporting zero-sized dimensions. -/
def zeroDimService : CursorService := ⟨0, 16, true, 0, 0, 0, fun _ => 0⟩

-- Helper: the classifier only ever returns a pixel-content category,
-- never the two categories reserved to the facade.
theorem determineResizeDirection_ne_arrow_ibeam (pd : Nat → Nat) (w h : Nat) :
    determineResizeDirection pd w h ≠ CursorType.ARROW ∧
    determineResizeDirection pd w h ≠ CursorType.IBEAM := by
  unfold determineResizeDirection
  split_ifs <;> exact ⟨by decide, by decide⟩

/-- C1: for every square buffer (width = height > 0) whose pixels do not
match the diagonal signature, `determineResizeDirection` classifies by
exact match on `maxInAnyRow`: 6 gives VERTICAL_RESIZE, 8 gives
HORIZONTAL_RESIZE, 10 gives HORIZONTAL_RESIZE, 14 gives POINTER when
`maxInAnyCol = 13` and VERTICAL_RESIZE otherwise, and any other value
gives OTHER. -/
theorem claim_C1 (pd : Nat → Nat) (w : Nat) (_hw : 0 < w)
    (hsig : ¬ diagSignature pd w w) :
    (maxInAnyRow pd w w = 6 →
      determineResizeDirection pd w w = CursorType.VERTICAL_RESIZE) ∧
    (maxInAnyRow pd w w = 8 →
      determineResizeDirection pd w w = CursorType.HORIZONTAL_RESIZE) ∧
    (maxInAnyRow pd w w = 10 →
      determineResizeDirection pd w w = CursorType.HORIZONTAL_RESIZE) ∧
    (maxInAnyRow pd w w = 14 → maxInAnyCol pd w w = 13 →
      determineResizeDirection pd w w = CursorType.POINTER) ∧
    (maxInAnyRow pd w w = 14 → maxInAnyCol pd w w ≠ 13 →
      determineResizeDirection pd w w = CursorType.VERTICAL_RESIZE) ∧
    (maxInAnyRow pd w w ≠ 6 → maxInAnyRow pd w w ≠ 8 →
      maxInAnyRow pd w w ≠ 10 → maxInAnyRow pd w w ≠ 14 →
      determineResizeDirection pd w w = CursorType.OTHER) := by
  refine ⟨fun h1 => ?_, fun h1 => ?_, fun h1 => ?_, fun h1 h2 => ?_,
    fun h1 h2 => ?_, fun h1 h2 h3 h4 => ?_⟩
  · simp [determineResizeDirection, hsig, h1]
  · simp [determineResizeDirection, hsig, h1]
  · simp [determineResizeDirection, hsig, h1]
  · simp [determineResizeDirection, hsig, h1, h2]
  · simp [determineResizeDirection, hsig, h1, h2]
  · simp [determineResizeDirection, hsig, h1, h2, h3, h4]

/-- C1 witness: the all-transparent 2 × 2 buffer has `maxInAnyRow = 0`,
which matches none of 6, 8, 10, 14, so the classifier returns OTHER. -/
theorem claim_C1_witness :
    determineResizeDirection (fun _ => 0) 2 2 = CursorType.OTHER :=
  (claim_C1 (fun _ => 0) 2 (by decide) (by decide)).2.2.2.2.2
    (by decide) (by decide) (by decide) (by decide)

/-- C2: for every square buffer with at least one opaque pixel, if the
`double` fraction of opaque pixels on the main diagonal is exactly 0 and
the `double` fraction on the anti-diagonal is exactly the `double` 0.04
(exact binary64 equality, not epsilon-tolerant), then
`determineResizeDirection` returns DIAGONAL_RESIZE — with no hypothesis
on `maxInAnyRow` or `maxInAnyCol`, so the first-phase match takes
precedence over the row/column test. -/
theorem claim_C2 (pd : Nat → Nat) (w : Nat)
    (htot : 0 < totalCount pd w w)
    (h1 : frac1 pd w w = 0)
    (h2 : frac2 pd w w = doubleLit004) :
    determineResizeDirection pd w w = CursorType.DIAGONAL_RESIZE := by
  have hsig : diagSignature pd w w := ⟨htot, h1, h2⟩
  simp [determineResizeDirection, hsig]

/-- C2 witness: the 6 × 6 buffer with 25 opaque pixels, none on the main
diagonal and exactly one (4%) on the anti-diagonal, satisfies the exact
floating-point signature and is classified DIAGONAL_RESIZE. -/
theorem claim_C2_witness :
    0 < totalCount diagWitnessBuf 6 6 ∧
    frac1 diagWitnessBuf 6 6 = 0 ∧
    frac2 diagWitnessBuf 6 6 = doubleLit004 ∧
    determineResizeDirection diagWitnessBuf 6 6 = CursorType.DIAGONAL_RESIZE :=
  ⟨by decide, by decide, by decide,
    claim_C2 diagWitnessBuf 6 (by decide) (by decide) (by decide)⟩

/-- C3: when the fetched bitmap has width 23 and height 22 (and the
query succeeded up to that point), `getCurrentCursorType` returns IBEAM,
the classifier is never invoked, and the result is the same for every
pixel content — the short-circuit fires before any pixel is read. -/
theorem claim_C3 (s : CursorService) (h1 : s.sizeErr = 0) (h2 : 0 < s.dataSize)
    (h3 : s.allocOk = true) (h4 : s.dataErr = 0)
    (h5 : s.width = 23) (h6 : s.height = 22) :
    getCurrentCursorType s = CursorType.IBEAM ∧
    (getCursorTypeRun s).classifierInvoked = false ∧
    ∀ pd : Nat → Nat,
      getCurrentCursorType { s with pixelData := pd } = CursorType.IBEAM := by
  have hds : ¬ s.dataSize ≤ 0 := not_le.mpr h2
  refine ⟨?_, ?_, fun pd => ?_⟩ <;>
    simp [getCurrentCursorType, getCursorType, getCursorTypeRun,
      h1, hds, h3, h4, h5, h6]

/-- C3 witness: a successful 23 × 22 query returns IBEAM. -/
theorem claim_C3_witness :
    getCurrentCursorType ibeamService = CursorType.IBEAM :=
  (claim_C3 ibeamService rfl (by decide) rfl rfl rfl rfl).1

/-- C4: on a successful query with positive dimensions, the facade
delegates to the classifier exactly when the `double` ratio
width / height equals 1, and for every bitmap whose ratio is not 1 and
whose dimensions are not the 23 × 22 IBeam signature it returns ARROW. -/
theorem claim_C4 (s : CursorService) (h1 : s.sizeErr = 0) (h2 : 0 < s.dataSize)
    (h3 : s.allocOk = true) (h4 : s.dataErr = 0)
    (h5 : 0 < s.width) (h6 : 0 < s.height) :
    ((getCursorTypeRun s).classifierInvoked = true ↔
      roundDouble (Rat.divInt s.width s.height) = 1) ∧
    (roundDouble (Rat.divInt s.width s.height) ≠ 1 →
      ¬(s.width = 23 ∧ s.height = 22) →
      getCurrentCursorType s = CursorType.ARROW) := by
  have hds : ¬ s.dataSize ≤ 0 := not_le.mpr h2
  by_cases h23 : s.width = 23 ∧ s.height = 22
  · have hr : roundDouble (Rat.divInt s.width s.height) ≠ 1 := by
      rw [h23.1, h23.2]; decide
    refine ⟨⟨fun hinv => ?_, fun hr1 => absurd hr1 hr⟩,
      fun _ hn23 => absurd h23 hn23⟩
    simp [getCursorTypeRun, h1, hds, h3, h4, h5, h6, h23] at hinv
  · by_cases hr : roundDouble (Rat.divInt s.width s.height) = 1
    · refine ⟨⟨fun _ => hr, fun _ => ?_⟩, fun hrne _ => absurd hr hrne⟩
      simp [getCursorTypeRun, h1, hds, h3, h4, h5, h6, h23, hr]
    · refine ⟨⟨fun hinv => ?_, fun hr1 => absurd hr1 hr⟩, fun _ _ => ?_⟩
      · simp [getCursorTypeRun, h1, hds, h3, h4, h5, h6, h23, hr] at hinv
      · simp [getCurrentCursorType, getCursorType, getCursorTypeRun,
          h1, hds, h3, h4, h5, h6, h23, hr]

/-- C4 witness: for a square 2 × 2 bitmap the ratio is the double 1 and
the classifier is invoked. -/
theorem claim_C4_witness :
    ((getCursorTypeRun squareService).classifierInvoked = true ↔
      roundDouble (Rat.divInt squareService.width squareService.height) = 1) ∧
    (roundDouble (Rat.divInt squareService.width squareService.height) ≠ 1 →
      ¬(squareService.width = 23 ∧ squareService.height = 22) →
      getCurrentCursorType squareService = CursorType.ARROW) :=
  claim_C4 squareService rfl (by decide) rfl rfl (by decide) (by decide)

/-- C5 counterexample: on an internal failure the query does return the
category of numeric value 1, but value 1 is a declared named category —
IBEAM — so the sentinel collides with a declared category, refuting the
claim that it collides with none. -/
theorem claim_C5_counterexample :
    getCurrentCursorType failingSizeService = CursorType.IBEAM ∧
    CursorType.IBEAM.toCode = 1 :=
  ⟨by decide, by decide⟩

/-- C5 (amended): on every internal failure (size query fails or reports
a non-positive size, allocation fails, or the fetch fails),
`getCurrentCursorType` raises no error and returns the sentinel category
of numeric value 1 — which is the declared category IBEAM of the
`CursorType` enumeration, so failures are indistinguishable from the
IBeam category although conceptually meant as the Other/error outcome. -/
theorem claim_C5_amended (s : CursorService)
    (h : s.sizeErr ≠ 0 ∨ s.dataSize ≤ 0 ∨ s.allocOk = false ∨ s.dataErr ≠ 0) :
    getCurrentCursorType s = CursorType.ofCode 1 ∧
    (getCurrentCursorType s).toCode = 1 ∧
    getCurrentCursorType s = CursorType.IBEAM := by
  unfold getCurrentCursorType getCursorType getCursorTypeRun
  split_ifs with g1 g2 g3 <;>
    first
      | exact ⟨rfl, rfl, rfl⟩
      | (rcases h with h | h | h | h <;> simp_all)

/-- C5 witness: a failing bitmap fetch yields the sentinel, read back as
IBEAM. -/
theorem claim_C5_witness :
    getCurrentCursorType fetchFailService = CursorType.IBEAM :=
  (claim_C5_amended fetchFailService (Or.inr (Or.inr (Or.inr (by decide))))).2.2

/-- C6: for every square buffer in which no alpha byte exceeds 10, the
opaque total is 0, the guarded diagonal test is not entered (so the
division never runs on a zero denominator), and the classifier falls
through to the row/column test and returns OTHER. -/
theorem claim_C6 (pd : Nat → Nat) (w : Nat) (_hw : 0 < w)
    (ha : ∀ x y, x < w → y < w → alphaAt pd w x y ≤ 10) :
    totalCount pd w w = 0 ∧ ¬ diagSignature pd w w ∧
    determineResizeDirection pd w w = CursorType.OTHER := by
  have htot : totalCount pd w w = 0 := by
    unfold totalCount
    refine Finset.sum_eq_zero fun y hy => Finset.sum_eq_zero fun x hx => ?_
    rw [if_neg]
    exact not_lt.mpr (ha x y (Finset.mem_range.mp hx) (Finset.mem_range.mp hy))
  have hrow : ∀ y, y < w → rowCount pd w y = 0 := by
    intro y hy
    unfold rowCount
    refine Finset.sum_eq_zero fun x hx => ?_
    rw [if_neg]
    exact not_lt.mpr (ha x y (Finset.mem_range.mp hx) hy)
  have hmax : maxInAnyRow pd w w = 0 := by
    unfold maxInAnyRow
    exact Nat.le_zero.mp (Finset.sup_le fun y hy =>
      Nat.le_of_eq (hrow y (Finset.mem_range.mp hy)))
  have hsig : ¬ diagSignature pd w w := by
    intro hs
    have h0 := hs.1
    rw [htot] at h0
    exact absurd h0 (by decide)
  refine ⟨htot, hsig, ?_⟩
  simp [determineResizeDirection, hsig, hmax]

/-- C6 witness: the all-zero 1 × 1 buffer has total 0 and is classified
OTHER. -/
theorem claim_C6_witness :
    totalCount (fun _ => 0) 1 1 = 0 ∧
    determineResizeDirection (fun _ => 0) 1 1 = CursorType.OTHER :=
  ⟨(claim_C6 (fun _ => 0) 1 (by decide) (fun _ _ _ _ => Nat.zero_le 10)).1,
    (claim_C6 (fun _ => 0) 1 (by decide) (fun _ _ _ _ => Nat.zero_le 10)).2.2⟩

/-- C7: `hideCursor` and `showCursor` return status code 0 for every
outcome of the underlying platform command; a non-success platform
result is logged (the `logError` event) but never changes the returned
code. -/
theorem claim_C7 (hideErr showErr : ℤ) :
    (hideCursor hideErr).1 = 0 ∧ (showCursor showErr).1 = 0 ∧
    (VisEvent.logError ∈ (hideCursor hideErr).2 ↔ hideErr ≠ 0) ∧
    (VisEvent.logError ∈ (showCursor showErr).2 ↔ showErr ≠ 0) := by
  refine ⟨rfl, rfl, ?_, ?_⟩
  · unfold hideCursor
    by_cases h : hideErr = 0 <;> simp [h]
  · unfold showCursor
    by_cases h : showErr = 0 <;> simp [h]

/-- C8: on every run in which the pixel buffer was actually allocated,
it is freed exactly once — no exit path of `getCursorType` leaks it or
double-frees it. -/
theorem claim_C8 (s : CursorService)
    (h : (getCursorTypeRun s).bufferAllocated = true) :
    (getCursorTypeRun s).bufferFrees = 1 := by
  unfold getCursorTypeRun at h ⊢
  split_ifs at h ⊢ <;> simp_all

/-- C8 witness: the non-square success path frees the buffer once. -/
theorem claim_C8_witness : (getCursorTypeRun arrowService).bufferFrees = 1 :=
  claim_C8 arrowService (by decide)

/-- C9: for every buffer and positive square dimensions,
`determineResizeDirection` never returns ARROW and never returns IBEAM;
dually, whenever the facade returns ARROW or IBEAM the classifier was
not invoked — those categories come only from the dimension rules and
the failure sentinel. -/
theorem claim_C9 (pd : Nat → Nat) (w : Nat) (_hw : 0 < w) :
    (determineResizeDirection pd w w ≠ CursorType.ARROW ∧
     determineResizeDirection pd w w ≠ CursorType.IBEAM) ∧
    ∀ s : CursorService,
      (getCursorType s = CursorType.ARROW ∨ getCursorType s = CursorType.IBEAM) →
      (getCursorTypeRun s).classifierInvoked = false := by
  refine ⟨determineResizeDirection_ne_arrow_ibeam pd w w, fun s hs => ?_⟩
  unfold getCursorType at hs
  unfold getCursorTypeRun at hs ⊢
  split_ifs at hs ⊢
  all_goals try rfl
  rcases hs with hs | hs
  · exact absurd hs
      (determineResizeDirection_ne_arrow_ibeam s.pixelData s.width.toNat s.height.toNat).1
  · exact absurd hs
      (determineResizeDirection_ne_arrow_ibeam s.pixelData s.width.toNat s.height.toNat).2

/-- C9 witness: on the all-opaque 1 × 1 buffer the classifier does not
return ARROW. -/
theorem claim_C9_witness :
    determineResizeDirection (fun _ => 255) 1 1 ≠ CursorType.ARROW :=
  (claim_C9 (fun _ => 255) 1 (by decide)).1.1

/-- C10: when the size query and the fetch both succeed but the reported
width or height is non-positive, `getCurrentCursorType` returns ARROW —
not the numeric failure sentinel 1 — and the buffer is still freed
exactly once. -/
theorem claim_C10 (s : CursorService) (h1 : s.sizeErr = 0) (h2 : 0 < s.dataSize)
    (h3 : s.allocOk = true) (h4 : s.dataErr = 0)
    (h5 : s.width ≤ 0 ∨ s.height ≤ 0) :
    getCurrentCursorType s = CursorType.ARROW ∧
    (getCurrentCursorType s).toCode ≠ 1 ∧
    (getCursorTypeRun s).bufferFrees = 1 := by
  have hds : ¬ s.dataSize ≤ 0 := not_le.mpr h2
  have hdim : ¬ (0 < s.width ∧ 0 < s.height) := by
    rcases h5 with h | h
    · exact fun hc => absurd hc.1 (not_lt.mpr h)
    · exact fun hc => absurd hc.2 (not_lt.mpr h)
  unfold getCurrentCursorType getCursorType getCursorTypeRun
  rw [if_neg (by simp [h1, hds]), if_neg (by simp [h3]), if_neg (by simp [h4]),
    if_neg hdim]
  exact ⟨rfl, by decide, rfl⟩

/-- C10 witness: a successful query reporting a 0 × 0 bitmap returns
ARROW and frees the buffer. -/
theorem claim_C10_witness :
    getCurrentCursorType zeroDimService = CursorType.ARROW ∧
    (getCurrentCursorType zeroDimService).toCode ≠ 1 ∧
    (getCursorTypeRun zeroDimService).bufferFrees = 1 :=
  claim_C10 zeroDimService rfl (by decide) rfl rfl (Or.inl (by decide))
